import Mathlib

/-!
Verification development for the PolarRec Zotero plugin
(Record Adapter and Recommendation Controller).

The definitions below are a shallow embedding of the TypeScript sources:
  - src/unnamed/part_003          (MainViewController, latest controller variant)
  - src/unnamed/part_004          (earlier controller variant, 3-section results)
  - src/unnamed/part_005          (earlier controller variant)
  - src/src/modules/mainViewController.ts (earliest controller variant)
  - src/src/modules/mainView.ts   (MainView, 2-section presentation surface)

JavaScript strings are modelled as Lean String, JS regular expressions are
modelled by explicit character scanners with the same semantics on the
relevant patterns, JS objects with optional keys are modelled as structures
with Option fields (a key is present iff the field is some _), and JS
exceptions (TypeError from an out-of-range or undefined access) are modelled
by Option / Except results.
-/

namespace PolarRec

/-- JS regex class \d: the ASCII digits 0-9 (Char.isDigit is exactly this). -/
def isDigitChar (c : Char) : Bool := c.isDigit

/-- JS regex class \w: ASCII letters, digits and underscore. -/
def isWordChar (c : Char) : Bool := c.isAlphanum || c = '_'

/-- A JS word boundary test against an adjacent character:
none stands for the start/end of the string. -/
def boundaryOk : Option Char → Bool
  | none => true
  | some c => !(isWordChar c)

/-- Scanner for the global regex match of /\b\d{4}\b/g used by
part_003 #getYearFromZoteroItem: returns every non-overlapping 4-digit run
whose two ends lie at word boundaries, scanning left to right. `prev` is the
character just before the current position (none at the string start). -/
def matchYearRuns (prev : Option Char) : List Char → List String
  | c1 :: c2 :: c3 :: c4 :: rest =>
    if isDigitChar c1 && isDigitChar c2 && isDigitChar c3 && isDigitChar c4
        && boundaryOk prev && boundaryOk rest.head? then
      String.mk [c1, c2, c3, c4] :: matchYearRuns (some c4) rest
    else
      matchYearRuns (some c1) (c2 :: c3 :: c4 :: rest)
  | _ => []

/-- Scanner for the non-global regex match of /[^\d]\d{4}[^\d]/ used by the
earlier variants (part_004, part_005, mainViewController.ts): the first
window of a non-digit, four digits, and a non-digit; the whole 6-character
window (flanking characters included) is the match JS returns. -/
def findYearWindow : List Char → Option (List Char)
  | a :: c1 :: c2 :: c3 :: c4 :: b :: rest =>
    if !isDigitChar a && isDigitChar c1 && isDigitChar c2 && isDigitChar c3
        && isDigitChar c4 && !isDigitChar b then
      some [a, c1, c2, c3, c4, b]
    else
      findYearWindow (c1 :: c2 :: c3 :: c4 :: b :: rest)
  | _ => none

/-- JS String.prototype.trim: drop leading and trailing whitespace. Used
only to state trimming-related properties; the adapter source itself never
trims. -/
def jsTrim (s : String) : String :=
  String.mk
    (((s.data.dropWhile Char.isWhitespace).reverse.dropWhile
        Char.isWhitespace).reverse)

/-- A creator entry of a host bibliographic record (Zotero.Item creator). -/
structure Creator where
  creatorTypeID : Nat
  firstName : String
  lastName : String
deriving Repr, DecidableEq

/-- A host bibliographic record, holding the fields the adapter reads
(Zotero.Item, owned by the host; read-only to this core). `attachments`
is the list of attachment item ids returned by item.getAttachments(). -/
structure ZoteroItem where
  creators : List Creator := []
  date : String := ""
  conferenceName : String := ""
  place : String := ""
  title : String := ""
  abstractNote : String := ""
  doi : String := ""
  url : String := ""
  itemType : String := ""
  attachments : List Nat := []
deriving Repr, DecidableEq

/-- part_003 #getYearFromZoteroItem (lines 92-98):
itemDate.match(/\b\d{4}\b/g), returning the first candidate, or "" when
there is none. -/
def getYearFromZoteroItem (item : ZoteroItem) : String :=
  match matchYearRuns none item.date.data with
  | [] => ""
  | y :: _ => y

/-- The earlier #getYearFromZoteroItem (part_004 lines 73-79, part_005
lines 67-73, mainViewController.ts lines 42-48):
itemDate.match(/[^\d]\d{4}[^\d]/), returning the first (full) match, or ""
when there is none. The full match keeps the two flanking characters. -/
def getYearFromZoteroItemEarly (item : ZoteroItem) : String :=
  match findYearWindow item.date.data with
  | none => ""
  | some m => String.mk m

/-- #getAuthorsFromZoteroItem (part_003 lines 74-83): push
firstName + " " + lastName for every creator whose creatorTypeID equals the
host id for the "author" creator type (Zotero.CreatorTypes.getID("author"),
a host-supplied constant modelled here as the parameter authorTypeID). -/
def getAuthorsFromZoteroItem (authorTypeID : Nat) (item : ZoteroItem) :
    List String :=
  item.creators.foldl
    (fun authors creator =>
      if creator.creatorTypeID = authorTypeID then
        authors ++ [creator.firstName ++ " " ++ creator.lastName]
      else authors)
    []

/-- The Request Fragment built per record: a JS object whose keys are
present iff the field was set (Option some). -/
structure RequestFragment where
  authors : Option (List String) := none
  conference_name : Option String := none
  conference_location : Option String := none
  title : Option String := none
  year : Option String := none
  abstract : Option String := none
  doi : Option String := none
  url : Option String := none
deriving Repr, DecidableEq

/-- The direct-read phase of #getDataFromZoteroItem (part_003 lines
107-137; also the whole of part_005 lines 82-111 up to the year-regex
difference): each field is read, then included exactly when it is non-empty
(authors by .length !== 0, conferenceName/place by .length !== 0, the rest
by !== ""). No trimming is applied anywhere. -/
def getDataFromZoteroItem (authorTypeID : Nat) (item : ZoteroItem) :
    RequestFragment :=
  let authors := getAuthorsFromZoteroItem authorTypeID item
  let conferenceName := item.conferenceName
  let conferenceLocation := item.place
  let title := item.title
  let year := getYearFromZoteroItem item
  let abstract := item.abstractNote
  let doi := item.doi
  let url := item.url
  { authors := if authors.length ≠ 0 then some authors else none
    conference_name :=
      if conferenceName.length ≠ 0 then some conferenceName else none
    conference_location :=
      if conferenceLocation.length ≠ 0 then some conferenceLocation else none
    title := if title ≠ "" then some title else none
    year := if year ≠ "" then some year else none
    abstract := if abstract ≠ "" then some abstract else none
    doi := if doi ≠ "" then some doi else none
    url := if url ≠ "" then some url else none }

/-- [^>]*> inside an opening tag: consume up to and including the first
'>', returning the consumed characters ('>' included) and the rest. -/
def consumeOpenAttrs : List Char → Option (List Char × List Char)
  | [] => none
  | c :: rest =>
    if c = '>' then some ([c], rest)
    else (consumeOpenAttrs rest).map fun p => (c :: p.1, p.2)

/-- JS line terminators (the '.' regex class excludes them). -/
def isLineTerm (c : Char) : Bool := c = '\n' || c = '\r'

/-- (.*?)<\/p> : lazily consume characters (never a line terminator, since
JS '.' does not match those) up to the first literal closing p tag,
returning the inner text and the rest of the input. -/
def scanToPClose : List Char → Option (List Char × List Char)
  | '<' :: '/' :: 'p' :: '>' :: rest => some ([], rest)
  | c :: rest =>
    if isLineTerm c then none
    else (scanToPClose rest).map fun p => (c :: p.1, p.2)
  | [] => none

/-- One match attempt of the regex <p\b[^>]*>(.*?)<\/p> at the head of the
input: the full matched token (tags included) and the rest of the input. -/
def matchPTagAt : List Char → Option (List Char × List Char)
  | '<' :: 'p' :: rest =>
    (match rest with
     | [] => none
     | c :: _ =>
       if isWordChar c then none
       else
         (consumeOpenAttrs rest).bind fun p1 =>
           (scanToPClose p1.2).map fun p2 =>
             ('<' :: 'p' :: (p1.1 ++ p2.1 ++ ['<', '/', 'p', '>']), p2.2))
  | _ => none

/-- The global match htmlString.match(/<p\b[^>]*>(.*?)<\/p>/g): all
non-overlapping full matches, scanning left to right. Each step consumes at
least one character, so fuel equal to the input length makes the scan run
to completion exactly as the regex engine does. -/
def pTagMatchesFuel : Nat → List Char → List (List Char)
  | 0, _ => []
  | _, [] => []
  | fuel + 1, c :: rest =>
    match matchPTagAt (c :: rest) with
    | some p => p.1 :: pTagMatchesFuel fuel p.2
    | none => pTagMatchesFuel fuel rest

/-- Consume up to and including the first '>' (the tail of <[^>]+>). -/
def consumeToGt : List Char → Option (List Char)
  | [] => none
  | c :: rest => if c = '>' then some rest else consumeToGt rest

/-- One match attempt of [^>]+> right after a '<': at least one non-'>'
character followed by '>'; returns the rest of the input after the tag. -/
def stripTagAt : List Char → Option (List Char)
  | [] => none
  | c :: rest => if c = '>' then none else consumeToGt rest

/-- .replace(/<[^>]+>/g, ""): delete every tag occurrence, keeping every
other character; scans left to right. Fuel equal to the input length is
enough, since every step consumes at least one character. -/
def stripTags : Nat → List Char → List Char
  | 0, l => l
  | _, [] => []
  | fuel + 1, c :: rest =>
    if c = '<' then
      match stripTagAt rest with
      | some r => stripTags fuel r
      | none => c :: stripTags fuel rest
    else c :: stripTags fuel rest

/-- #getHtmlPTagText (part_003 lines 34-43): collect every p-tag match,
join the full matches with single spaces, then strip all markup tags from
the joined text. When no p-tag match exists, JS match returns null and the
source returns "". -/
def getHtmlPTagText (htmlString : String) : String :=
  match pTagMatchesFuel htmlString.data.length htmlString.data with
  | [] => ""
  | tok :: toks =>
    let joined := List.intercalate [' '] (tok :: toks)
    String.mk (stripTags joined.length joined)

/-- The outcome of resolving the first attachment and awaiting
window.fetch on it (part_003 lines 153-167): ok carries the snapshot
contents once response.text() has resolved; notOk is a fetch that resolves
with response.ok false (the source logs an error and returns the
fragment); rejected is a fetch (or text) promise that rejects with the
given error text — the source wraps the awaited calls in no try/catch, so
this rejection propagates out of #getDataFromZoteroItem. -/
inductive SnapshotFetch where
  | ok (html : String)
  | notOk
  | rejected (err : String)
deriving Repr, DecidableEq

/-- #getDataFromZoteroItem in full (part_003 lines 107-187): the direct
read phase followed by the snapshot-text fallback. The fallback block runs
for every encyclopediaArticle/webpage item that has an attachment,
independently of whether the abstract is already populated. When there is
no attachment, or the fetch resolves with response.ok false, the
direct-read fragment is returned unchanged. A rejected fetch is caught
nowhere inside the adapter and escapes it: the error result. On a
successful fetch the p-tag text is assigned to the abstract when the
abstract is still absent and appended to it when it is present (the
source's test that pTagText is not undefined is always true, since
#getHtmlPTagText always returns a string). -/
def getDataFromZoteroItemFull (authorTypeID : Nat) (item : ZoteroItem)
    (fetch : SnapshotFetch) : Except String RequestFragment :=
  let data := getDataFromZoteroItem authorTypeID item
  if item.itemType = "encyclopediaArticle" ∨ item.itemType = "webpage" then
    match item.attachments with
    | [] => .ok data
    | _ :: _ =>
      match fetch with
      | .rejected err => .error err
      | .notOk => .ok data
      | .ok html =>
        let pTagText := getHtmlPTagText html
        match data.abstract with
        | none => .ok { data with abstract := some pTagText }
        | some a => .ok { data with abstract := some (a ++ pTagText) }
  else .ok data

/-- The MainViewController instance state (part_003 lines 4-11): the four
toggle flags, all initialised to false, and the optional bound view. The
view object type is a parameter; the controller never inspects it through
these operations, it only stores the reference. -/
structure ControllerState (V : Type) where
  recoArxivRsDbAllowed : Bool := false
  recoIeeeXploreRsDbAllowed : Bool := false
  recoAuthorsFiltered : Bool := false
  recoConfNameFiltered : Bool := false
  view : Option V := none

variable {V : Type}

/-- onRecoArxivRsDbClicked (part_003 lines 306-313): store the boolean
verbatim; the log call has no further effect on state. -/
def onRecoArxivRsDbClicked (checked : Bool) (c : ControllerState V) :
    ControllerState V :=
  { c with recoArxivRsDbAllowed := checked }

/-- onRecoIeeeXploreRsDbClicked (part_003 lines 318-325). -/
def onRecoIeeeXploreRsDbClicked (checked : Bool) (c : ControllerState V) :
    ControllerState V :=
  { c with recoIeeeXploreRsDbAllowed := checked }

/-- onRecoAuthorsFilterClicked (part_003 lines 330-337). -/
def onRecoAuthorsFilterClicked (checked : Bool) (c : ControllerState V) :
    ControllerState V :=
  { c with recoAuthorsFiltered := checked }

/-- onRecoConfNameFilterClicked (part_003 lines 342-349). -/
def onRecoConfNameFilterClicked (checked : Bool) (c : ControllerState V) :
    ControllerState V :=
  { c with recoConfNameFiltered := checked }

/-- The filter JSON object: optional authors and conference_name keys. -/
structure Filter where
  authors : Option (List String) := none
  conference_name : Option String := none
deriving Repr, DecidableEq

/-- #getRecoFilter (part_003 lines 196-207): reads targetData[0] without
any emptiness check. In JS an empty targetData makes targetData[0]
undefined, and the hasOwnProperty call on it throws a TypeError; that error
branch is modelled by the none result. For a non-empty list: each key is
copied from the first fragment exactly when the fragment carries it and the
matching toggle is set. -/
def getRecoFilter (c : ControllerState V)
    (targetData : List RequestFragment) : Option Filter :=
  match targetData with
  | [] => none
  | d0 :: _ =>
    let f : Filter := {}
    let f :=
      if d0.authors.isSome then
        if c.recoAuthorsFiltered then { f with authors := d0.authors } else f
      else f
    let f :=
      if d0.conference_name.isSome then
        if c.recoConfNameFiltered then
          { f with conference_name := d0.conference_name }
        else f
      else f
    some f

/-- The JS value reaching part_005's #getRecoFilter: either a Request
Fragment object, or an Array of fragments — which is what the part_005
call site actually passes. -/
inductive RecoFilterArg where
  | fragment (f : RequestFragment)
  | array (l : List RequestFragment)

/-- JS hasOwnProperty on the values reaching part_005's #getRecoFilter: a
fragment object owns a key iff that field was set; an Array instance owns
only its index properties and length, so every field-name query on it is
false. -/
def jsHasOwn (arg : RecoFilterArg) (key : String) : Bool :=
  match arg with
  | .fragment f =>
    if key = "authors" then f.authors.isSome
    else if key = "conference_name" then f.conference_name.isSome
    else if key = "conference_location" then f.conference_location.isSome
    else if key = "title" then f.title.isSome
    else if key = "year" then f.year.isSome
    else if key = "abstract" then f.abstract.isSome
    else if key = "doi" then f.doi.isSome
    else if key = "url" then f.url.isSome
    else false
  | .array _ => false

/-- Reading the authors property off the value: undefined (none) on an
Array, which owns no such property. -/
def jsAuthors : RecoFilterArg → Option (List String)
  | .fragment f => f.authors
  | .array _ => none

/-- Reading the conference_name property off the value. -/
def jsConferenceName : RecoFilterArg → Option String
  | .fragment f => f.conference_name
  | .array _ => none

/-- part_005 #getRecoFilter (lines 120-129): the same two key checks as
part_003, but run against the single targetData value it receives rather
than against targetData[0]. -/
def getRecoFilterV1 (c : ControllerState V) (targetData : RecoFilterArg) :
    Filter :=
  let f : Filter := {}
  let f :=
    if jsHasOwn targetData "authors" then
      if c.recoAuthorsFiltered then { f with authors := jsAuthors targetData }
      else f
    else f
  let f :=
    if jsHasOwn targetData "conference_name" then
      if c.recoConfNameFiltered then
        { f with conference_name := jsConferenceName targetData }
      else f
    else f
  f

/-- The part_005 call site (onRecoButtonClicked lines 179-185): the target
fragment ARRAY itself — not its first element — is handed to
#getRecoFilter. -/
def getRecoFilterCallV1 (authorTypeID : Nat) (c : ControllerState V)
    (targetItem : ZoteroItem) : Filter :=
  getRecoFilterV1 c
    (.array [getDataFromZoteroItem authorTypeID targetItem])

/-- The resource database list (part_003 lines 225-230, part_004 lines
148-152): push "arxiv" when allowed, then "ieeexplore" when allowed. -/
def getResourceDatabases (c : ControllerState V) : List String :=
  let dbs : List String := []
  let dbs := if c.recoArxivRsDbAllowed then dbs ++ ["arxiv"] else dbs
  let dbs := if c.recoIeeeXploreRsDbAllowed then dbs ++ ["ieeexplore"] else dbs
  dbs

/-- The JSON request body sent to the /recommend endpoint (part_003 lines
246-251). -/
structure RequestBody where
  target_resources : List RequestFragment
  existing_resources : List RequestFragment
  filter : Filter
  resource_databases : List String
deriving Repr, DecidableEq

/-- The request-building prefix of #sendRecoRequest (part_003 lines
216-231), with the direct-read adapter (the part_004 lines 139-152 variant
is synchronous and identical in structure): adapt every target and every
existing item in order, derive the filter from the adapted target list, and
derive the resource database list from the toggles. none models the
TypeError thrown inside #getRecoFilter when the target list is empty. -/
def buildRecoRequestBody (authorTypeID : Nat) (c : ControllerState V)
    (targetItems existingItems : List ZoteroItem) : Option RequestBody :=
  let targetData := targetItems.map (getDataFromZoteroItem authorTypeID)
  let existingData := existingItems.map (getDataFromZoteroItem authorTypeID)
  (getRecoFilter c targetData).map fun filter =>
    { target_resources := targetData
      existing_resources := existingData
      filter := filter
      resource_databases := getResourceDatabases c }

/-- Modelled from the spec: the internationalized string lookup getString
(src/modules/locale.ts, imported by mainView.ts but not present under
src/). The spec treats it as an external collaborator; it is modelled as
the key itself, and no verified claim depends on its values. -/
def getString (key : String) : String := key

/-- The display state of one result slot: its visibility and the value
attributes of its field elements (mainView.ts register() builds
MAX_RESULT_COUNT of these per section). -/
structure SlotView where
  visible : Bool := false
  titleText : String := ""
  authorsText : String := ""
  yearText : String := ""
  urlText : String := ""
  authorRankText : String := ""
  citationRankText : String := ""
  citCountRankText : String := ""
  keywordRankText : String := ""
deriving Repr, DecidableEq

/-- The display state of one result section: its header element and its
result slots. -/
structure SectionView where
  headerVisible : Bool := false
  slots : List SlotView := []
deriving Repr, DecidableEq

/-- The display state of the main view: the loading element and the result
sections. The DOM elements are assumed registered (getElementById is only
null for indices outside the built lists, which the list lookups model). -/
structure MainViewState where
  loadingText : String := ""
  loadingVisible : Bool := false
  sections : List SectionView := []
deriving Repr, DecidableEq

/-- A result entry of the API response as consumed by mainView.ts (its
Result interface): the source guards authors, year and url against
undefined at runtime, so those are modelled as options. -/
structure Result where
  title : String := ""
  authors : Option (List String) := none
  year : Option String := none
  url : Option String := none
  author_based_ranking : String := ""
  citation_based_ranking : String := ""
  citation_count_ranking : String := ""
  keyword_based_ranking : String := ""
deriving Repr, DecidableEq

/-- updateLoadingView (mainView.ts lines 338-355): custom text replaces
the default text and shows the element; otherwise the default loading text
is set and the element is shown exactly when loading. -/
def updateLoadingView (isLoading : Bool) (customText : Option String)
    (v : MainViewState) : MainViewState :=
  match customText with
  | some t => { v with loadingText := t, loadingVisible := true }
  | none =>
    { v with loadingText := getString "polarrec.reco.load"
             loadingVisible := isLoading }

/-- JS array indexing: the element at the index, or none (undefined) when
the index is out of range. Structurally recursive, so that it reduces even
when only a prefix of the list is known. -/
def jsIndex {α : Type} : List α → Nat → Option α
  | [], _ => none
  | x :: _, 0 => some x
  | _ :: xs, n + 1 => jsIndex xs n

/-- Replace the element at an index by f of it; out of range leaves the
list unchanged (the source skips a slot whose element is not found). -/
def modifyAt {α : Type} (f : α → α) (n : Nat) (l : List α) : List α :=
  match l, n with
  | [], _ => []
  | x :: xs, 0 => f x :: xs
  | x :: xs, n + 1 => x :: modifyAt f n xs

/-- Array.prototype.reduce over the authors list with no initial value
(mainView.ts line 406): a TypeError on an empty array, otherwise a fold
inserting ", ". -/
def renderAuthors : List String → Except String String
  | [] => .error "TypeError: reduce of empty array with no initial value"
  | a :: rest => .ok (rest.foldl (fun text author => text ++ ", " ++ author) a)

/-- setAttribute coerces a JS undefined value to the string "undefined"
(mainView.ts line 409 passes results[l][i].year unguarded). -/
def jsStringOrUndefined : Option String → String
  | some s => s
  | none => "undefined"

/-- Populate one result slot (mainView.ts lines 400-426): write the result
fields into the slot elements and show the slot. The source writes the
attributes one by one, so on a TypeError from the authors reduce the JS DOM
keeps the title already written, while this model discards the partial
write; no verified claim observes the view state after such a failure, only
the propagation of the error to the catch handler. -/
def renderSlot (r : Result) (s : SlotView) : Except String SlotView :=
  let authorsTextE :=
    match r.authors with
    | some l => renderAuthors l
    | none => .ok (jsStringOrUndefined r.year)
  match authorsTextE with
  | .error e => .error e
  | .ok authorsText =>
    .ok { s with
      visible := true
      titleText := r.title
      authorsText := authorsText
      yearText := match r.year with | some y => y | none => "No Year"
      urlText := match r.url with | some u => u | none => "No URL"
      authorRankText := "Author-based ranking:\t" ++ r.author_based_ranking
      citationRankText := "Citation-based ranking:\t" ++ r.citation_based_ranking
      citCountRankText := "Citation count ranking:\t" ++ r.citation_count_ranking
      keywordRankText := "Keyword-based ranking:\t" ++ r.keyword_based_ranking }

/-- The populate loop of one section (mainView.ts lines 377-427), running
i over the indices of rs; a missing slot element means continue. -/
def populateSlots : List Result → Nat → List SlotView →
    Except String (List SlotView)
  | [], _, slots => .ok slots
  | r :: rest, i, slots =>
    match jsIndex slots i with
    | none => populateSlots rest (i + 1) slots
    | some s =>
      match renderSlot r s with
      | .error e => .error e
      | .ok s' => populateSlots rest (i + 1) (slots.set i s')

/-- The hide loop of one section (mainView.ts lines 430-434): hide the
slots at indices i, i+1, ... for the given number of iterations. -/
def hideSlotsFrom : Nat → Nat → List SlotView → List SlotView
  | _, 0, slots => slots
  | i, fuel + 1, slots =>
    hideSlotsFrom (i + 1) fuel
      (modifyAt (fun s => { s with visible := false }) i slots)

/-- mainView.ts line 34: the maximum number of results per section. -/
def MAX_RESULT_COUNT : Nat := 50

/-- mainView.ts lines 36-39: the number of result sections (the variant of
part_002 has 3; the modelled mainView.ts variant has 2). -/
def RESULTS_SECTION_COUNT : Nat := 2

/-- One iteration of the section loop of updateResultViews (mainView.ts
lines 369-435) on the section contents rs: set the header visibility, then
populate slots 0..rs.length-1, then hide slots up to MAX_RESULT_COUNT. -/
def processSection (rs : List Result) (sec : SectionView) :
    Except String SectionView :=
  let sec1 := { sec with headerVisible := rs.length != 0 }
  match populateSlots rs 0 sec1.slots with
  | .error e => .error e
  | .ok slots1 =>
    .ok { sec1 with
      slots := hideSlotsFrom rs.length (MAX_RESULT_COUNT - rs.length) slots1 }

/-- The outer section loop of updateResultViews: l runs over the section
indices. A missing results[l] is undefined in JS and reading its length
throws a TypeError; a missing section header element means continue. -/
def sectionsLoop (results : List (List Result)) :
    Nat → Nat → List SectionView → Except String (List SectionView)
  | _, 0, sections => .ok sections
  | l, fuel + 1, sections =>
    match jsIndex results l with
    | none => .error "TypeError: cannot read property length of undefined"
    | some rs =>
      match jsIndex sections l with
      | none => sectionsLoop results (l + 1) fuel sections
      | some sec =>
        match processSection rs sec with
        | .error e => .error e
        | .ok sec' => sectionsLoop results (l + 1) fuel (sections.set l sec')

/-- updateResultViews (mainView.ts lines 363-436): an empty outer list is
first replaced by one empty list per result section, then each of the
RESULTS_SECTION_COUNT sections is processed in order. -/
def updateResultViews (results : List (List Result)) (v : MainViewState) :
    Except String MainViewState :=
  let results :=
    if results.length = 0 then
      List.replicate RESULTS_SECTION_COUNT ([] : List Result)
    else results
  match sectionsLoop results 0 RESULTS_SECTION_COUNT v.sections with
  | .error e => .error e
  | .ok sections => .ok { v with sections := sections }

/-- The message of the Error thrown on a non-ok response (part_003 line
255): apiUrl, numeric status and status text joined by ": ". -/
def recoErrorMessage (apiUrl : String) (status : Nat) (statusText : String) :
    String :=
  apiUrl ++ ": " ++ toString status ++ ": " ++ statusText

/-- The loaded-summary line (part_003 lines 266-268). procTimeFixed stands
for procTime.toFixed(3), the display string formatted from the
floating-point processing time of the response. -/
def procTimeLoadedText (targetItems : List ZoteroItem)
    (procTimeFixed : String) (resultLength : Nat) : String :=
  let targetText :=
    match targetItems with
    | [t] => "\"" ++ t.title ++ "\""
    | _ => toString targetItems.length ++ " items"
  "Loaded " ++ toString resultLength ++ " results in " ++ procTimeFixed ++
    " seconds for " ++ targetText ++ "."

/-- The outcome of the outbound POST to /recommend as observed by the
promise chain of #sendRecoRequest: a 2xx response carrying the parsed
section lists, a non-2xx response (status and statusText), or a transport
failure whose rejection value prints as errorText. -/
inductive FetchOutcome where
  | success (procTimeFixed : String)
      (rankedExisting rankedDatabase : List Result)
  | httpError (status : Nat) (statusText : String)
  | networkError (errorText : String)
deriving Repr, DecidableEq

/-- One full invocation against a bound view (part_003
onRecoItemButtonClicked lines 354-365 or onRecoItemsInViewButtonClicked
lines 371-382, followed by #sendRecoRequest lines 216-282): clear the
result sections, show the loading indicator with the default text, build
the request body, then on the response either populate the two result
sections and show the summary line, or catch the failure and display its
text in the loading view (Error.prototype.toString prefixes "Error: " to
the thrown message). An exception thrown before the fetch — the
empty-target TypeError inside #getRecoFilter — is caught nowhere in the
source and surfaces as the error result. A failure thrown inside the
success handler (a TypeError from the result rendering) is caught by the
catch handler, which displays its text. -/
def invokeRecoFlow {V : Type} (authorTypeID : Nat) (c : ControllerState V)
    (apiUrlBase : String) (targetItems existingItems : List ZoteroItem)
    (outcome : FetchOutcome) (v : MainViewState) :
    Except String MainViewState :=
  match updateResultViews [] v with
  | .error e => .error e
  | .ok v1 =>
    let v2 := updateLoadingView true none v1
    match buildRecoRequestBody authorTypeID c targetItems existingItems with
    | none => .error "TypeError: cannot read properties of undefined"
    | some _body =>
      let apiUrl := apiUrlBase ++ "/recommend"
      match outcome with
      | .success procTimeFixed rankedExisting rankedDatabase =>
        match updateResultViews [rankedExisting, rankedDatabase] v2 with
        | .ok v3 =>
          let resultLength := rankedExisting.length + rankedDatabase.length
          .ok (updateLoadingView false
            (some (procTimeLoadedText targetItems procTimeFixed resultLength)) v3)
        | .error e => .ok (updateLoadingView false (some e) v2)
      | .httpError status statusText =>
        .ok (updateLoadingView false
          (some ("Error: " ++ recoErrorMessage apiUrl status statusText)) v2)
      | .networkError errorText =>
        .ok (updateLoadingView false (some errorText) v2)

/-! ### Helper lemmas -/

/-- Processing a section against an empty result list hides the header,
populates nothing, and runs the hide loop over every slot index. -/
theorem processSection_nil (sec : SectionView) :
    processSection [] sec =
      .ok { sec with headerVisible := false
                     slots := hideSlotsFrom 0 MAX_RESULT_COUNT sec.slots } := rfl

/-- Clearing the result views never fails: with an empty outer list the
source pads one empty list per section before any indexing. -/
theorem updateResultViews_nil_ok (v : MainViewState) :
    ∃ secs, updateResultViews [] v = .ok { v with sections := secs } := by
  rcases v with ⟨lt, lv, _ | ⟨s0, _ | ⟨s1, rest⟩⟩⟩
  · exact ⟨[], rfl⟩
  · exact Exists.intro
      [{ s0 with headerVisible := false, slots := hideSlotsFrom 0 MAX_RESULT_COUNT s0.slots }]
      rfl
  · exact Exists.intro
      ({ s0 with headerVisible := false, slots := hideSlotsFrom 0 MAX_RESULT_COUNT s0.slots } ::
       { s1 with headerVisible := false, slots := hideSlotsFrom 0 MAX_RESULT_COUNT s1.slots } ::
       rest)
      rfl

/-- The author-collecting foldl of #getAuthorsFromZoteroItem is the
filter of the creators by the author type id, mapped to display names,
after the starting accumulator. -/
theorem getAuthors_foldl (aid : Nat) (l : List Creator) :
    ∀ acc : List String,
      l.foldl
        (fun authors creator =>
          if creator.creatorTypeID = aid then
            authors ++ [creator.firstName ++ " " ++ creator.lastName]
          else authors) acc =
      acc ++ (l.filter (fun cr => cr.creatorTypeID == aid)).map
        (fun cr => cr.firstName ++ " " ++ cr.lastName) := by
  induction l with
  | nil => intro acc; simp
  | cons cr l ih =>
    intro acc
    by_cases h : cr.creatorTypeID = aid <;>
      simp [List.foldl_cons, List.filter_cons, h, ih]

/-! ### Claim theorems -/

/-- C4: the Record Adapter's authors extraction includes exactly the
creators whose role tag equals the host's "author" type id (any other role
is excluded), renders each as given name, a single space, and family name,
preserves the creator-list order (it equals the order-preserving filter of
the creator list), and yields the empty list when no creator is tagged as
an author. -/
theorem claim_C4 (authorTypeID : Nat) (item : ZoteroItem) :
    getAuthorsFromZoteroItem authorTypeID item =
      (item.creators.filter (fun cr => cr.creatorTypeID == authorTypeID)).map
        (fun cr => cr.firstName ++ " " ++ cr.lastName) ∧
    ((∀ cr ∈ item.creators, cr.creatorTypeID ≠ authorTypeID) →
      getAuthorsFromZoteroItem authorTypeID item = []) := by
  have h := getAuthors_foldl authorTypeID item.creators []
  refine ⟨by simpa [getAuthorsFromZoteroItem] using h, fun hnone => ?_⟩
  have hfil : item.creators.filter (fun cr => cr.creatorTypeID == authorTypeID) = [] := by
    rw [List.filter_eq_nil_iff]
    intro a ha
    simpa using hnone a ha
  simp [getAuthorsFromZoteroItem, h, hfil]

/-- Witness for C4 at a concrete record: a single creator tagged with a
non-author role id yields no authors. -/
theorem claim_C4_witness :
    getAuthorsFromZoteroItem 1
      { creators := [{ creatorTypeID := 2, firstName := "Jane", lastName := "Doe" }] } = [] :=
  (claim_C4 1
    { creators := [{ creatorTypeID := 2, firstName := "Jane", lastName := "Doe" }] }).2
    (by decide)

/-- C7: each of the four toggle handlers stores its boolean argument
verbatim into its own flag and leaves the other three flags and the view
reference unchanged, for every argument and every prior controller
state. -/
theorem claim_C7 {V : Type} (c : ControllerState V) (b : Bool) :
    ((onRecoArxivRsDbClicked b c).recoArxivRsDbAllowed = b ∧
     (onRecoArxivRsDbClicked b c).recoIeeeXploreRsDbAllowed = c.recoIeeeXploreRsDbAllowed ∧
     (onRecoArxivRsDbClicked b c).recoAuthorsFiltered = c.recoAuthorsFiltered ∧
     (onRecoArxivRsDbClicked b c).recoConfNameFiltered = c.recoConfNameFiltered ∧
     (onRecoArxivRsDbClicked b c).view = c.view) ∧
    ((onRecoIeeeXploreRsDbClicked b c).recoIeeeXploreRsDbAllowed = b ∧
     (onRecoIeeeXploreRsDbClicked b c).recoArxivRsDbAllowed = c.recoArxivRsDbAllowed ∧
     (onRecoIeeeXploreRsDbClicked b c).recoAuthorsFiltered = c.recoAuthorsFiltered ∧
     (onRecoIeeeXploreRsDbClicked b c).recoConfNameFiltered = c.recoConfNameFiltered ∧
     (onRecoIeeeXploreRsDbClicked b c).view = c.view) ∧
    ((onRecoAuthorsFilterClicked b c).recoAuthorsFiltered = b ∧
     (onRecoAuthorsFilterClicked b c).recoArxivRsDbAllowed = c.recoArxivRsDbAllowed ∧
     (onRecoAuthorsFilterClicked b c).recoIeeeXploreRsDbAllowed = c.recoIeeeXploreRsDbAllowed ∧
     (onRecoAuthorsFilterClicked b c).recoConfNameFiltered = c.recoConfNameFiltered ∧
     (onRecoAuthorsFilterClicked b c).view = c.view) ∧
    ((onRecoConfNameFilterClicked b c).recoConfNameFiltered = b ∧
     (onRecoConfNameFilterClicked b c).recoArxivRsDbAllowed = c.recoArxivRsDbAllowed ∧
     (onRecoConfNameFilterClicked b c).recoIeeeXploreRsDbAllowed = c.recoIeeeXploreRsDbAllowed ∧
     (onRecoConfNameFilterClicked b c).recoAuthorsFiltered = c.recoAuthorsFiltered ∧
     (onRecoConfNameFilterClicked b c).view = c.view) :=
  ⟨⟨rfl, rfl, rfl, rfl, rfl⟩, ⟨rfl, rfl, rfl, rfl, rfl⟩,
   ⟨rfl, rfl, rfl, rfl, rfl⟩, ⟨rfl, rfl, rfl, rfl, rfl⟩⟩

/-- C8: for every toggle state, the resource_databases list placed in the
Request Body is exactly the sublist of ["arxiv", "ieeexplore"] selected by
the arxiv-allowed and ieee-allowed toggles, in that fixed order, with zero,
one or two elements; and every request body built from a non-empty target
list carries exactly that list. -/
theorem claim_C8 {V : Type} (c : ControllerState V) (authorTypeID : Nat)
    (ti : ZoteroItem) (tis eis : List ZoteroItem) :
    List.Sublist (getResourceDatabases c) ["arxiv", "ieeexplore"] ∧
    ("arxiv" ∈ getResourceDatabases c ↔ c.recoArxivRsDbAllowed = true) ∧
    ("ieeexplore" ∈ getResourceDatabases c ↔ c.recoIeeeXploreRsDbAllowed = true) ∧
    (getResourceDatabases c).length ≤ 2 ∧
    (∃ body, buildRecoRequestBody authorTypeID c (ti :: tis) eis = some body ∧
      body.resource_databases = getResourceDatabases c) := by
  refine ⟨?_, ?_, ?_, ?_, ?_⟩
  · cases hA : c.recoArxivRsDbAllowed <;> cases hI : c.recoIeeeXploreRsDbAllowed <;>
      simp [getResourceDatabases, hA, hI]
  · cases hA : c.recoArxivRsDbAllowed <;> cases hI : c.recoIeeeXploreRsDbAllowed <;>
      simp [getResourceDatabases, hA, hI]
  · cases hA : c.recoArxivRsDbAllowed <;> cases hI : c.recoIeeeXploreRsDbAllowed <;>
      simp [getResourceDatabases, hA, hI]
  · cases hA : c.recoArxivRsDbAllowed <;> cases hI : c.recoIeeeXploreRsDbAllowed <;>
      simp [getResourceDatabases, hA, hI]
  · exact ⟨_, rfl, rfl⟩

/-- C9: supplying an empty target list is not a guarded precondition: the
filter derivation reads the first element of the adapted target list with
no emptiness check, so its error branch is reached (none, modelling the
thrown TypeError), the request body is never built, and the whole
invocation flow ends in the error outcome instead of an empty filter or a
clean rejection. -/
theorem claim_C9 {V : Type} (c : ControllerState V) (authorTypeID : Nat)
    (eis : List ZoteroItem) (apiUrlBase : String) (outcome : FetchOutcome)
    (v : MainViewState) :
    getRecoFilter c ([] : List RequestFragment) = none ∧
    buildRecoRequestBody authorTypeID c [] eis = none ∧
    ∃ msg, invokeRecoFlow authorTypeID c apiUrlBase [] eis outcome v =
      .error msg := by
  refine ⟨rfl, rfl, ?_⟩
  obtain ⟨secs, hsecs⟩ := updateResultViews_nil_ok v
  refine ⟨"TypeError: cannot read properties of undefined", ?_⟩
  simp [invokeRecoFlow, hsecs, buildRecoRequestBody, getRecoFilter]

theorem string_length_eq_zero_iff (s : String) : s.length = 0 ↔ s = "" := by
  rw [String.ext_iff]
  exact List.length_eq_zero

/-- C3 as amended. In the part_003/part_004 variant the derived Filter
carries the authors key iff the authors toggle is set and the first target
fragment carries a (by construction non-empty) authors field, in which
case it equals that fragment's authors list; the conference_name key
behaves the same against the conference toggle; and the filter depends on
the first target fragment only, whatever the other targets hold
(non-emptiness of a carried authors field on adapter-built fragments is
the adapter invariant proved with C1). In the part_005 variant the call
site hands the whole target-fragment array to #getRecoFilter, whose
hasOwnProperty checks run against the Array object and are always false,
so that variant's derived Filter is always empty regardless of the toggle
state and the fragment contents. -/
theorem claim_C3_amended {V : Type} (c : ControllerState V)
    (d0 : RequestFragment) (rest rest' : List RequestFragment)
    (authorTypeID : Nat) (targetItem : ZoteroItem) :
    (∃ f, getRecoFilter c (d0 :: rest) = some f ∧
      f.authors = (if c.recoAuthorsFiltered = true then d0.authors else none) ∧
      f.conference_name =
        (if c.recoConfNameFiltered = true then d0.conference_name else none) ∧
      (f.authors.isSome = true ↔
        (c.recoAuthorsFiltered = true ∧ d0.authors.isSome = true)) ∧
      (f.conference_name.isSome = true ↔
        (c.recoConfNameFiltered = true ∧ d0.conference_name.isSome = true)) ∧
      getRecoFilter c (d0 :: rest') = getRecoFilter c (d0 :: rest)) ∧
    getRecoFilterCallV1 authorTypeID c targetItem = ({} : Filter) := by
  constructor
  · refine ⟨_, rfl, ?_, ?_, ?_, ?_, rfl⟩ <;>
      cases hA : c.recoAuthorsFiltered <;> cases hC : c.recoConfNameFiltered <;>
        cases ha : d0.authors <;> cases hc : d0.conference_name <;>
          simp [getRecoFilter, hA, hC, ha, hc]
  · rfl

/-- Counterexample to C3 as stated: in the part_005 variant, with the
authors toggle on and a first target fragment that carries a non-empty
authors list, the derived Filter still omits the authors key — the
invocation passes the fragment array itself to #getRecoFilter, and
hasOwnProperty on the array is false. -/
theorem claim_C3_counterexample :
    (getDataFromZoteroItem 0
      { creators := [{ creatorTypeID := 0, firstName := "Jane",
                       lastName := "Doe" }] }).authors = some ["Jane Doe"] ∧
    getRecoFilterCallV1 0
      ({ recoAuthorsFiltered := true } : ControllerState Unit)
      { creators := [{ creatorTypeID := 0, firstName := "Jane",
                       lastName := "Doe" }] } = ({} : Filter) := by
  constructor
  · decide
  · rfl

/-- C1 as amended: a field key is present in the Request Fragment iff its
extracted value is non-empty, where emptiness is the literal comparison
used by the source (no trimming anywhere); a present key carries the
extracted value verbatim, which is never the empty string (or empty list
for authors). -/
theorem claim_C1_amended (authorTypeID : Nat) (item : ZoteroItem) :
    ((getDataFromZoteroItem authorTypeID item).title = none ↔ item.title = "") ∧
    (∀ s, (getDataFromZoteroItem authorTypeID item).title = some s →
      s = item.title ∧ s ≠ "") ∧
    ((getDataFromZoteroItem authorTypeID item).abstract = none ↔
      item.abstractNote = "") ∧
    (∀ s, (getDataFromZoteroItem authorTypeID item).abstract = some s →
      s = item.abstractNote ∧ s ≠ "") ∧
    ((getDataFromZoteroItem authorTypeID item).doi = none ↔ item.doi = "") ∧
    (∀ s, (getDataFromZoteroItem authorTypeID item).doi = some s →
      s = item.doi ∧ s ≠ "") ∧
    ((getDataFromZoteroItem authorTypeID item).url = none ↔ item.url = "") ∧
    (∀ s, (getDataFromZoteroItem authorTypeID item).url = some s →
      s = item.url ∧ s ≠ "") ∧
    ((getDataFromZoteroItem authorTypeID item).conference_name = none ↔
      item.conferenceName = "") ∧
    (∀ s, (getDataFromZoteroItem authorTypeID item).conference_name = some s →
      s = item.conferenceName ∧ s ≠ "") ∧
    ((getDataFromZoteroItem authorTypeID item).conference_location = none ↔
      item.place = "") ∧
    (∀ s, (getDataFromZoteroItem authorTypeID item).conference_location = some s →
      s = item.place ∧ s ≠ "") ∧
    ((getDataFromZoteroItem authorTypeID item).year = none ↔
      getYearFromZoteroItem item = "") ∧
    (∀ s, (getDataFromZoteroItem authorTypeID item).year = some s →
      s = getYearFromZoteroItem item ∧ s ≠ "") ∧
    ((getDataFromZoteroItem authorTypeID item).authors = none ↔
      getAuthorsFromZoteroItem authorTypeID item = []) ∧
    (∀ l, (getDataFromZoteroItem authorTypeID item).authors = some l →
      l = getAuthorsFromZoteroItem authorTypeID item ∧ l ≠ []) := by
  refine ⟨?_, ?_, ?_, ?_, ?_, ?_, ?_, ?_, ?_, ?_, ?_, ?_, ?_, ?_, ?_, ?_⟩
  · by_cases h : item.title = "" <;> simp [getDataFromZoteroItem, h]
  · by_cases h : item.title = "" <;> simp [getDataFromZoteroItem, h]
  · by_cases h : item.abstractNote = "" <;> simp [getDataFromZoteroItem, h]
  · by_cases h : item.abstractNote = "" <;> simp [getDataFromZoteroItem, h]
  · by_cases h : item.doi = "" <;> simp [getDataFromZoteroItem, h]
  · by_cases h : item.doi = "" <;> simp [getDataFromZoteroItem, h]
  · by_cases h : item.url = "" <;> simp [getDataFromZoteroItem, h]
  · by_cases h : item.url = "" <;> simp [getDataFromZoteroItem, h]
  · by_cases h : item.conferenceName = "" <;>
      simp [getDataFromZoteroItem, h, string_length_eq_zero_iff]
  · by_cases h : item.conferenceName = "" <;>
      simp [getDataFromZoteroItem, h, string_length_eq_zero_iff]
  · by_cases h : item.place = "" <;>
      simp [getDataFromZoteroItem, h, string_length_eq_zero_iff]
  · by_cases h : item.place = "" <;>
      simp [getDataFromZoteroItem, h, string_length_eq_zero_iff]
  · by_cases h : getYearFromZoteroItem item = "" <;>
      simp [getDataFromZoteroItem, h]
  · by_cases h : getYearFromZoteroItem item = "" <;>
      simp [getDataFromZoteroItem, h]
  · by_cases h : getAuthorsFromZoteroItem authorTypeID item = [] <;>
      simp [getDataFromZoteroItem, h, List.length_eq_zero]
  · by_cases h : getAuthorsFromZoteroItem authorTypeID item = [] <;>
      simp [getDataFromZoteroItem, h, List.length_eq_zero]

/-- Counterexample to C1 as stated: a record whose title is a single space
has a title that is the empty string after trimming, yet the title key is
present in the fragment (the source compares against "" without any
trimming). -/
theorem claim_C1_counterexample :
    (getDataFromZoteroItem 1 { title := " " }).title = some " " ∧
    jsTrim " " = "" := by
  constructor
  · decide
  · decide

/-- Witness for C1 as amended at a concrete record: a non-empty title is
present verbatim and a (plainly) empty abstract is absent. -/
theorem claim_C1_witness :
    ("Paper X" = ({ title := "Paper X" } : ZoteroItem).title ∧ "Paper X" ≠ "") ∧
    ((getDataFromZoteroItem 1 { title := "Paper X" }).abstract = none ↔
      ({ title := "Paper X" } : ZoteroItem).abstractNote = "") :=
  ⟨(claim_C1_amended 1 { title := "Paper X" }).2.1 "Paper X" (by decide),
   (claim_C1_amended 1 { title := "Paper X" }).2.2.1⟩

theorem matchYearRuns_short (prev : Option Char) (l : List Char)
    (h : l.length < 4) : matchYearRuns prev l = [] := by
  rcases l with _ | ⟨a, _ | ⟨b, _ | ⟨c, _ | ⟨d, rest⟩⟩⟩⟩
  · rfl
  · rfl
  · rfl
  · rfl
  · simp only [List.length_cons] at h; omega

/-- The scanner skips a position whose head is a non-digit. -/
theorem matchYearRuns_cons_skip (prev : Option Char) (c : Char)
    (l : List Char) (hc : isDigitChar c = false) (hl : 3 ≤ l.length) :
    matchYearRuns prev (c :: l) = matchYearRuns (some c) l := by
  rcases l with _ | ⟨x, _ | ⟨y, _ | ⟨z, tail⟩⟩⟩
  · simp at hl
  · simp at hl
  · simp at hl
  · simp [matchYearRuns, hc]

theorem getLast?_or_cons :
    ∀ (l : List Char) (c : Char) (prev : Option Char),
      ((c :: l).getLast?).or prev = (l.getLast?).or (some c)
  | [], c, prev => by simp
  | d :: l', c, prev => by
    rw [List.getLast?_cons_cons, getLast?_or_cons l' d prev,
      getLast?_or_cons l' d (some c)]

/-- Scanning past a digit-free prefix leaves the matches of the tail, with
the previous-character state advanced to the last prefix character. -/
theorem matchYearRuns_skip :
    ∀ (w1 : List Char) (prev : Option Char) (rest : List Char),
      (∀ c ∈ w1, isDigitChar c = false) → 3 ≤ rest.length →
      matchYearRuns prev (w1 ++ rest) =
        matchYearRuns ((w1.getLast?).or prev) rest := by
  intro w1
  induction w1 with
  | nil => intro prev rest _ _; simp
  | cons c w1' ih =>
    intro prev rest h hl
    have hc : isDigitChar c = false := h c (by simp)
    have h' : ∀ x ∈ w1', isDigitChar x = false := fun x hx => h x (by simp [hx])
    have hlen : 3 ≤ (w1' ++ rest).length := by
      simp only [List.length_append]; omega
    calc matchYearRuns prev ((c :: w1') ++ rest)
        = matchYearRuns prev (c :: (w1' ++ rest)) := by simp
      _ = matchYearRuns (some c) (w1' ++ rest) :=
          matchYearRuns_cons_skip _ _ _ hc hlen
      _ = matchYearRuns ((w1'.getLast?).or (some c)) rest := ih (some c) rest h' hl
      _ = matchYearRuns (((c :: w1').getLast?).or prev) rest := by
          rw [getLast?_or_cons]

/-- A 4-digit run at word boundaries at the head of the scan is matched
whole. -/
theorem matchYearRuns_hit (prev : Option Char) (d1 d2 d3 d4 : Char)
    (w2 : List Char) (h1 : isDigitChar d1 = true) (h2 : isDigitChar d2 = true)
    (h3 : isDigitChar d3 = true) (h4 : isDigitChar d4 = true)
    (hb : boundaryOk prev = true) (ha : boundaryOk w2.head? = true) :
    matchYearRuns prev (d1 :: d2 :: d3 :: d4 :: w2) =
      String.mk [d1, d2, d3, d4] :: matchYearRuns (some d4) w2 := by
  simp [matchYearRuns, h1, h2, h3, h4, hb, ha]

/-- C2 as amended. For the part_003 variant (global match of a 4-digit run
at word boundaries): whenever the date decomposes as a digit-free prefix
ending at a word boundary, a 4-digit run, and a suffix starting at a word
boundary (as in "Spring 2019 edition", whose run is flanked by spaces), the
extracted year is exactly the 4-digit string and the fragment carries it.
The earlier variants return the matched window together with its two
flanking characters instead (see the counterexample). In every variant an
empty date yields the empty sentinel and the year key is absent from the
fragment. -/
theorem claim_C2_amended :
    (∀ (authorTypeID : Nat) (item : ZoteroItem) (w1 w2 : List Char)
        (d1 d2 d3 d4 : Char),
      item.date.data = w1 ++ ([d1, d2, d3, d4] ++ w2) →
      (∀ c ∈ w1, isDigitChar c = false) →
      boundaryOk w1.getLast? = true →
      boundaryOk w2.head? = true →
      isDigitChar d1 = true → isDigitChar d2 = true →
      isDigitChar d3 = true → isDigitChar d4 = true →
      getYearFromZoteroItem item = String.mk [d1, d2, d3, d4] ∧
      (getDataFromZoteroItem authorTypeID item).year =
        some (String.mk [d1, d2, d3, d4])) ∧
    (∀ (authorTypeID : Nat) (item : ZoteroItem), item.date = "" →
      getYearFromZoteroItem item = "" ∧
      (getDataFromZoteroItem authorTypeID item).year = none ∧
      getYearFromZoteroItemEarly item = "") := by
  constructor
  · intro aid item w1 w2 d1 d2 d3 d4 hdate hw1 hb ha h1 h2 h3 h4
    have hyear : getYearFromZoteroItem item = String.mk [d1, d2, d3, d4] := by
      unfold getYearFromZoteroItem
      rw [hdate, matchYearRuns_skip w1 none ([d1, d2, d3, d4] ++ w2) hw1
        (by simp), Option.or_none]
      simp only [List.cons_append, List.nil_append]
      rw [matchYearRuns_hit w1.getLast? d1 d2 d3 d4 w2 h1 h2 h3 h4 hb ha]
    have hne : String.mk [d1, d2, d3, d4] ≠ "" := by
      simp [String.ext_iff]
    exact ⟨hyear, by simp [getDataFromZoteroItem, hyear, hne]⟩
  · intro aid item hdate
    have h0 : getYearFromZoteroItem item = "" := by
      unfold getYearFromZoteroItem
      rw [hdate]
      decide
    have h1 : getYearFromZoteroItemEarly item = "" := by
      unfold getYearFromZoteroItemEarly
      rw [hdate]
      decide
    exact ⟨h0, by simp [getDataFromZoteroItem, h0], h1⟩

/-- Counterexample to C2 as stated: at the spec's own example date the
earlier variant (mainViewController.ts lines 42-48, also part_004 and
part_005) returns the full regex match including the flanking characters,
" 2019 " rather than "2019". -/
theorem claim_C2_counterexample :
    getYearFromZoteroItemEarly { date := "Spring 2019 edition" } = " 2019 " ∧
    getYearFromZoteroItemEarly { date := "Spring 2019 edition" } ≠ "2019" := by
  constructor
  · decide
  · decide

/-- Witness for C2 as amended at the spec's example: the part_003 variant
extracts exactly "2019" from "Spring 2019 edition", and an empty date
leaves the year key absent. -/
theorem claim_C2_witness :
    getYearFromZoteroItem { date := "Spring 2019 edition" } =
      String.mk ['2', '0', '1', '9'] ∧
    (getDataFromZoteroItem 1 { date := "" }).year = none :=
  ⟨(claim_C2_amended.1 1 { date := "Spring 2019 edition" }
      "Spring ".data " edition".data '2' '0' '1' '9'
      (by decide) (by decide) (by decide) (by decide) rfl rfl rfl rfl).1,
   (claim_C2_amended.2 1 { date := "" } rfl).2.1⟩

/-- C6 as amended: the snapshot fallback block runs for every
webpage/encyclopedia item that has an attachment, whether or not the
abstract is already populated (when it is, the paragraph text is appended
to it; the stated "only when the abstract is still absent" fails, see the
counterexample). When no attachment exists, or the fetch resolves with
response.ok false, the adaptation returns the direct-read fragment
unchanged — in particular with the abstract key absent whenever the direct
read produced none — and for items that are not webpage/encyclopedia
entries the fallback never runs. A rejected fetch, however, escapes the
adapter: the awaited fetch and text calls sit in no try/catch, so the
stated "no exception escapes the adapter from the fallback path" fails as
well. -/
theorem claim_C6_amended (authorTypeID : Nat) (item : ZoteroItem)
    (fetch : SnapshotFetch) :
    ((item.attachments = [] ∨ fetch = SnapshotFetch.notOk) →
      getDataFromZoteroItemFull authorTypeID item fetch =
        .ok (getDataFromZoteroItem authorTypeID item)) ∧
    (¬(item.itemType = "encyclopediaArticle" ∨ item.itemType = "webpage") →
      getDataFromZoteroItemFull authorTypeID item fetch =
        .ok (getDataFromZoteroItem authorTypeID item)) ∧
    (∀ err,
      (item.itemType = "encyclopediaArticle" ∨ item.itemType = "webpage") →
      item.attachments ≠ [] →
      getDataFromZoteroItemFull authorTypeID item (.rejected err) =
        .error err) ∧
    (∀ html a,
      (item.itemType = "encyclopediaArticle" ∨ item.itemType = "webpage") →
      item.attachments ≠ [] →
      (getDataFromZoteroItem authorTypeID item).abstract = some a →
      getDataFromZoteroItemFull authorTypeID item (.ok html) =
        .ok { getDataFromZoteroItem authorTypeID item with
              abstract := some (a ++ getHtmlPTagText html) }) ∧
    (∀ html,
      (item.itemType = "encyclopediaArticle" ∨ item.itemType = "webpage") →
      item.attachments ≠ [] →
      (getDataFromZoteroItem authorTypeID item).abstract = none →
      getDataFromZoteroItemFull authorTypeID item (.ok html) =
        .ok { getDataFromZoteroItem authorTypeID item with
              abstract := some (getHtmlPTagText html) }) := by
  refine ⟨?_, ?_, ?_, ?_, ?_⟩
  · intro h
    rcases h with hatt | hf
    · cases fetch <;> simp [getDataFromZoteroItemFull, hatt]
    · subst hf
      cases hatt : item.attachments <;>
        simp [getDataFromZoteroItemFull, hatt]
  · intro hty
    simp [getDataFromZoteroItemFull, hty]
  · intro err hty hatt
    rcases hatt' : item.attachments with _ | ⟨x, xs⟩
    · exact absurd hatt' hatt
    · simp [getDataFromZoteroItemFull, hty, hatt']
  · intro html a hty hatt habs
    rcases hatt' : item.attachments with _ | ⟨x, xs⟩
    · exact absurd hatt' hatt
    · simp [getDataFromZoteroItemFull, hty, hatt', habs]
  · intro html hty hatt habs
    rcases hatt' : item.attachments with _ | ⟨x, xs⟩
    · exact absurd hatt' hatt
    · simp [getDataFromZoteroItemFull, hty, hatt', habs]

/-- Counterexample to C6 as stated: a webpage record with a populated
abstract and an attachment still runs the fallback — a successful fetch
appends the paragraph text to the existing abstract — and a rejected
fetch escapes the adapter as an exception instead of degrading to the
direct-read fragment. -/
theorem claim_C6_counterexample :
    (getDataFromZoteroItem 1
      { itemType := "webpage", abstractNote := "A.",
        attachments := [1] }).abstract = some "A." ∧
    getDataFromZoteroItemFull 1
      { itemType := "webpage", abstractNote := "A.", attachments := [1] }
      (.ok "<p>B</p>") =
      .ok { getDataFromZoteroItem 1
              { itemType := "webpage", abstractNote := "A.",
                attachments := [1] } with abstract := some "A.B" } ∧
    getDataFromZoteroItemFull 1
      { itemType := "webpage", abstractNote := "A.", attachments := [1] }
      (.rejected "TypeError: NetworkError when attempting to fetch resource.") =
      .error "TypeError: NetworkError when attempting to fetch resource." := by
  refine ⟨by decide, by rfl, by rfl⟩

/-- Witness for C6 as amended: a webpage record without attachments
adapts, under a non-ok fetch, to exactly its direct-read fragment. -/
theorem claim_C6_witness :
    getDataFromZoteroItemFull 1
      { itemType := "webpage", abstractNote := "", attachments := [] }
      SnapshotFetch.notOk =
    .ok (getDataFromZoteroItem 1
      { itemType := "webpage", abstractNote := "", attachments := [] }) :=
  (claim_C6_amended 1
    { itemType := "webpage", abstractNote := "", attachments := [] }
    SnapshotFetch.notOk).1 (Or.inl rfl)

/-- C5: when the outbound request of an invocation with at least one
target receives a non-2xx status, the loading view is set to display the
thrown error text — "Error: " (from Error.prototype.toString) followed by
the url, the numeric status, and the status text joined by ": " — so the
displayed text contains the request URL and the numeric status; and no
result section is written after the failure: the sections equal exactly
the cleared state established at the start of the invocation. -/
theorem claim_C5 {V : Type} (authorTypeID : Nat) (c : ControllerState V)
    (apiUrlBase : String) (ti : ZoteroItem) (tis eis : List ZoteroItem)
    (status : Nat) (statusText : String) (v : MainViewState) :
    ∃ v1 v',
      updateResultViews [] v = .ok v1 ∧
      invokeRecoFlow authorTypeID c apiUrlBase (ti :: tis) eis
        (.httpError status statusText) v = .ok v' ∧
      v'.sections = v1.sections ∧
      v'.loadingVisible = true ∧
      v'.loadingText =
        "Error: " ++
          recoErrorMessage (apiUrlBase ++ "/recommend") status statusText ∧
      (∃ a b, v'.loadingText = a ++ ((apiUrlBase ++ "/recommend") ++ b)) ∧
      (∃ a b, v'.loadingText = a ++ (toString status ++ b)) := by
  obtain ⟨secs, h1⟩ := updateResultViews_nil_ok v
  refine ⟨{ v with sections := secs },
    updateLoadingView false
      (some ("Error: " ++
        recoErrorMessage (apiUrlBase ++ "/recommend") status statusText))
      (updateLoadingView true none { v with sections := secs }),
    h1, ?_, rfl, rfl, rfl, ?_, ?_⟩
  · unfold invokeRecoFlow
    rw [h1]
    rfl
  · refine ⟨"Error: ", ": " ++ (toString status ++ (": " ++ statusText)), ?_⟩
    apply String.ext
    simp [recoErrorMessage, updateLoadingView, List.append_assoc]
  · refine ⟨"Error: " ++ ((apiUrlBase ++ "/recommend") ++ ": "),
      ": " ++ statusText, ?_⟩
    apply String.ext
    simp [recoErrorMessage, updateLoadingView, List.append_assoc]

theorem hideSlotsFrom_nil (i fuel : Nat) : hideSlotsFrom i fuel [] = [] := by
  induction fuel generalizing i with
  | zero => rfl
  | succ f ih =>
    simp only [hideSlotsFrom, modifyAt]
    exact ih (i + 1)

theorem hideSlotsFrom_cons_shift :
    ∀ (fuel i : Nat) (x : SlotView) (xs : List SlotView),
      hideSlotsFrom (i + 1) fuel (x :: xs) = x :: hideSlotsFrom i fuel xs := by
  intro fuel
  induction fuel with
  | zero => intro i x xs; rfl
  | succ f ih =>
    intro i x xs
    simp only [hideSlotsFrom, modifyAt]
    exact ih (i + 1) x _

/-- Running the hide loop from index 0 with enough iterations hides every
slot and changes nothing else. -/
theorem hideSlotsFrom_all :
    ∀ (slots : List SlotView) (fuel : Nat), slots.length ≤ fuel →
      hideSlotsFrom 0 fuel slots =
        slots.map (fun s => { s with visible := false }) := by
  intro slots
  induction slots with
  | nil => intro fuel _; simp [hideSlotsFrom_nil]
  | cons x xs ih =>
    intro fuel h
    cases fuel with
    | zero => simp at h
    | succ f =>
      have hx : xs.length ≤ f := by
        simp only [List.length_cons] at h; omega
      simp only [hideSlotsFrom, modifyAt]
      rw [hideSlotsFrom_cons_shift f 0 { x with visible := false } xs, ih f hx]
      simp

/-- C10: on the registered view (two sections of MAX_RESULT_COUNT slots
each), updateResultViews with an empty outer list is treated as one empty
list per result section, never errors (no out-of-range access), hides
every section header and every slot of indices 0..MAX_RESULT_COUNT-1, and
writes no result field: the result equals the old view with only the
visibility flags lowered. -/
theorem claim_C10 (v : MainViewState)
    (hlen : v.sections.length = RESULTS_SECTION_COUNT)
    (hslots : ∀ sec ∈ v.sections, sec.slots.length = MAX_RESULT_COUNT) :
    updateResultViews [] v =
      .ok { v with sections := v.sections.map (fun sec => { sec with headerVisible := false, slots := sec.slots.map (fun s => { s with visible := false }) }) } ∧
    updateResultViews [] v =
      updateResultViews (List.replicate RESULTS_SECTION_COUNT ([] : List Result)) v := by
  obtain ⟨s0, s1, hsec⟩ := List.length_eq_two.mp hlen
  have h0 : s0.slots.length = MAX_RESULT_COUNT := hslots s0 (by rw [hsec]; simp)
  have h1 : s1.slots.length = MAX_RESULT_COUNT := hslots s1 (by rw [hsec]; simp)
  have e0 : hideSlotsFrom 0 MAX_RESULT_COUNT s0.slots =
      s0.slots.map (fun s => { s with visible := false }) :=
    hideSlotsFrom_all s0.slots MAX_RESULT_COUNT (le_of_eq h0)
  have e1 : hideSlotsFrom 0 MAX_RESULT_COUNT s1.slots =
      s1.slots.map (fun s => { s with visible := false }) :=
    hideSlotsFrom_all s1.slots MAX_RESULT_COUNT (le_of_eq h1)
  rcases v with ⟨lt, lv, secs⟩
  dsimp only at hsec
  subst hsec
  constructor
  · have hcomp : updateResultViews []
        ({ loadingText := lt, loadingVisible := lv,
           sections := [s0, s1] } : MainViewState) =
        .ok ({ loadingText := lt, loadingVisible := lv,
               sections :=
                 [{ s0 with headerVisible := false, slots := hideSlotsFrom 0 MAX_RESULT_COUNT s0.slots },
                  { s1 with headerVisible := false, slots := hideSlotsFrom 0 MAX_RESULT_COUNT s1.slots }] } : MainViewState) := rfl
    rw [hcomp, e0, e1]
    rfl
  · rfl

/-- Witness for C10 on a concrete registered view: two visible sections of
50 default slots end with headers and slots hidden and fields intact. -/
theorem claim_C10_witness :
    updateResultViews []
      { loadingText := "", loadingVisible := false,
        sections := List.replicate 2
          { headerVisible := true, slots := List.replicate 50 ({} : SlotView) } } =
      .ok ({ loadingText := "", loadingVisible := false,
             sections := (List.replicate 2 ({ headerVisible := true, slots := List.replicate 50 ({} : SlotView) } : SectionView)).map (fun sec => { sec with headerVisible := false, slots := sec.slots.map (fun s => { s with visible := false }) }) } : MainViewState) :=
  (claim_C10
    { loadingText := "", loadingVisible := false,
      sections := List.replicate 2
        { headerVisible := true, slots := List.replicate 50 ({} : SlotView) } }
    (by decide) (by decide)).1

example :
    getYearFromZoteroItem { date := "Spring 2019 edition" } = "2019" := by
  decide

example : getHtmlPTagText "<p>B</p>" = "B" := by decide

example : getHtmlPTagText "<p class=\"x\">A<b>c</b></p>\n<p>B</p>" = "Ac B" := by
  decide

example : getHtmlPTagText "no tags here" = "" := by decide

example :
    getYearFromZoteroItemEarly { date := "Spring 2019 edition" } = " 2019 " := by
  decide

example : getYearFromZoteroItem { date := "a2019b" } = "" := by decide

example : getYearFromZoteroItem { date := "" } = "" := by decide

end PolarRec
